import Mathlib

/-!
Shallow embedding of the AdaptML frontend realtime reconciler
(`src/unnamed/part_001`, the Next.js Home page) and of the dashboard
data-population logic (`src/frontend/pages/dashboard.js`).

The embedding follows the source line by line:
* `Course` / `Notification` mirror the record shapes used by the page state;
* `onmessage` mirrors the `socket.onmessage` switch;
* `fetchData` mirrors the initial-data `useEffect` (try / three awaits / catch);
* `cleanupEffect` mirrors the WebSocket `useEffect` cleanup;
* `dismissNotification` mirrors the `NotificationToast` `onClose` callback;
* `NotificationTimer` together with `scheduleEffect`, `enqueueNotification`,
  `fireTimer` and `advanceTo` mirrors the notification-expiry `useEffect`
  (one `setTimeout` handle, cancelled and rescheduled on every change of the
  `notifications` array, whose callback drops the head via `prev.slice(1)`).
-/

namespace AdaptML

/-- Course record as it appears in the page state and in the mock fetch
results. `matchScore` stands for the source field `match` (a Lean keyword);
numeric display fields use exact rationals. -/
structure Course where
  id : Nat
  title : String
  image : Option String := none
  rating : ℚ := 0
  students : Nat := 0
  price : ℚ := 0
  matchScore : Option Nat := none
deriving DecidableEq, Repr

/-- Notification entry: `id` is the `Date.now()` arrival timestamp, `message`
the toast text. -/
structure Notification where
  id : Nat
  message : String
deriving DecidableEq, Repr

/-- Decoded WebSocket envelope: the `data.type` discriminator with its
kind-specific payload. `other` covers every unrecognized discriminator. -/
inductive WsData where
  | new_recommendation (course : Course)
  | trending_update (courses : List Course)
  | other (kind : String)
deriving DecidableEq, Repr

/-- Raw inbound `event.data`: either a string that `JSON.parse` decodes to an
envelope, or a malformed string on which `JSON.parse` throws. -/
inductive RawMessage where
  | wellFormed (data : WsData)
  | malformed (data : String)
deriving DecidableEq, Repr

/-- WebSocket `readyState` constants. -/
inductive ReadyState where
  | CONNECTING
  | OPEN
  | CLOSING
  | CLOSED
deriving DecidableEq, Repr

/-- State of the Home component: the five `useState` hooks that the realtime
reconciler and the initial fetch touch. -/
structure HomeState where
  topPicks : List Course
  trending : List Course
  aiSuggestions : List Course
  isLoading : Bool
  notifications : List Notification
deriving DecidableEq, Repr

/-- Home component state together with the module-level `socket` handle
(`none` before `new WebSocket(...)` runs). -/
structure PageModel where
  home : HomeState
  socket : Option ReadyState
deriving DecidableEq, Repr

/-- Initial values of the five `useState` hooks. -/
def initialHomeState : HomeState :=
  { topPicks := []
    trending := []
    aiSuggestions := []
    isLoading := true
    notifications := [] }

/-- Hardcoded result of `mockFetchTopPicks`. -/
def mockFetchTopPicks : List Course :=
  [ { id := 1, title := "Machine Learning Fundamentals", image := some "/images/course1.jpg", rating := 4.8, students := 12500, price := 49.99 }
  , { id := 2, title := "Advanced React Patterns", image := some "/images/course2.jpg", rating := 4.9, students := 8300, price := 59.99 }
  , { id := 3, title := "Data Science with Python", image := some "/images/course3.jpg", rating := 4.7, students := 15200, price := 44.99 }
  , { id := 4, title := "Full Stack Web Development", image := some "/images/course4.jpg", rating := 4.6, students := 10800, price := 69.99 }
  , { id := 5, title := "iOS App Development with Swift", image := some "/images/course5.jpg", rating := 4.5, students := 7600, price := 54.99 } ]

/-- Hardcoded result of `mockFetchTrending`. -/
def mockFetchTrending : List Course :=
  [ { id := 6, title := "Blockchain Development", image := some "/images/course6.jpg", rating := 4.7, students := 9200, price := 64.99 }
  , { id := 7, title := "UX/UI Design Principles", image := some "/images/course7.jpg", rating := 4.8, students := 11300, price := 49.99 }
  , { id := 8, title := "Cloud Computing with AWS", image := some "/images/course8.jpg", rating := 4.6, students := 8700, price := 59.99 }
  , { id := 9, title := "Cybersecurity Fundamentals", image := some "/images/course9.jpg", rating := 4.9, students := 13400, price := 74.99 }
  , { id := 10, title := "Digital Marketing Mastery", image := some "/images/course10.jpg", rating := 4.5, students := 10100, price := 44.99 } ]

/-- Hardcoded result of `mockFetchAiSuggestions`. -/
def mockFetchAiSuggestions : List Course :=
  [ { id := 11, title := "Natural Language Processing", image := some "/images/course11.jpg", rating := 4.8, students := 7800, price := 69.99, matchScore := some 98 }
  , { id := 12, title := "DevOps Engineering", image := some "/images/course12.jpg", rating := 4.7, students := 9100, price := 64.99, matchScore := some 95 }
  , { id := 13, title := "Mobile App Design", image := some "/images/course13.jpg", rating := 4.6, students := 6500, price := 49.99, matchScore := some 92 }
  , { id := 14, title := "Game Development with Unity", image := some "/images/course14.jpg", rating := 4.9, students := 12200, price := 79.99, matchScore := some 90 }
  , { id := 15, title := "Business Intelligence", image := some "/images/course15.jpg", rating := 4.5, students := 8400, price := 54.99, matchScore := some 87 } ]

/-- The `fetchData` function of the initial-data `useEffect`: three awaited
fetch results in sequence inside one `try`; on success all three lists and the
loading flag are set, on the first failure the `catch` branch logs the error
and only clears the loading flag. The three `Except` arguments are the
outcomes of the three awaited calls (always `.ok mockFetch...` in the shipped
code). The second component collects the `console.error` output. -/
def fetchData (r1 r2 r3 : Except String (List Course)) (s : HomeState) :
    HomeState × List String :=
  match r1 with
  | .error e => ({ s with isLoading := false }, ["Error fetching data: " ++ e])
  | .ok tp =>
    match r2 with
    | .error e => ({ s with isLoading := false }, ["Error fetching data: " ++ e])
    | .ok tr =>
      match r3 with
      | .error e => ({ s with isLoading := false }, ["Error fetching data: " ++ e])
      | .ok ai =>
        ({ s with topPicks := tp, trending := tr, aiSuggestions := ai, isLoading := false }, [])

/-- The initial fetch as it actually runs: all three mock calls succeed. -/
def fetchDataMock (s : HomeState) : HomeState × List String :=
  fetchData (.ok mockFetchTopPicks) (.ok mockFetchTrending) (.ok mockFetchAiSuggestions) s

/-- Home state right after the successful initial data population. -/
def homeAfterLoad : HomeState := (fetchDataMock initialHomeState).1

/-- The `socket.onmessage` switch on a decoded envelope. `now` is the value
`Date.now()` returns while the handler runs. On `new_recommendation` the
course is prepended to `aiSuggestions` and the list truncated by
`.slice(0, 10)`, and a notification is appended; on `trending_update` the
trending list is replaced wholesale; any other kind only logs. The second
component collects the `console.log` diagnostic output. -/
def onmessage (now : Nat) (s : HomeState) : WsData → HomeState × List String
  | .new_recommendation course =>
    ({ s with
        aiSuggestions := (course :: s.aiSuggestions).take 10
        notifications := s.notifications ++
          [{ id := now, message := "New recommendation: " ++ course.title }] },
      [])
  | .trending_update courses => ({ s with trending := courses }, [])
  | .other kind => (s, ["Received unknown update type: " ++ kind])

/-- Models `JSON.parse(event.data)`: returns the decoded envelope, or throws
(`.error`) a `SyntaxError` on malformed input. -/
def parseMessage : RawMessage → Except String WsData
  | .wellFormed data => .ok data
  | .malformed data => .error ("SyntaxError: unexpected token in JSON: " ++ data)

/-- Delivery of one raw message to the component: the event loop invokes
`socket.onmessage`. A `SyntaxError` thrown by `JSON.parse` escapes the
handler (there is no try/catch in `onmessage`) and is confined to the event
loop, which reports it to the console; no component state has been touched at
that point and nothing reaches the component or its caller. The module-level
socket handle is never touched by the handler. -/
def dispatchMessage (now : Nat) (m : PageModel) (raw : RawMessage) :
    PageModel × List String :=
  match parseMessage raw with
  | .error e => (m, ["Uncaught " ++ e])
  | .ok data =>
    let (h, logs) := onmessage now m.home data
    ({ m with home := h }, logs)

/-- The `socket.onerror` handler: `console.error` only; no state change, no
reconnection, nothing thrown. -/
def onerror (m : PageModel) (err : String) : PageModel × List String :=
  (m, ["WebSocket error: " ++ err])

/-- Delivery of a timed sequence of decoded envelopes to `socket.onmessage`,
threading the home state and collecting the diagnostic output. -/
def runMessages (s : HomeState) : List (Nat × WsData) → HomeState × List String
  | [] => (s, [])
  | (t, d) :: rest =>
    let (s1, logs1) := onmessage t s d
    let (s2, logs2) := runMessages s1 rest
    (s2, logs1 ++ logs2)

/-- Effect of `socket.close()` on `readyState`, per the WebSocket API with the
closing handshake collapsed: closing an OPEN (or still CONNECTING) socket ends
at CLOSED; on CLOSING or CLOSED the call is a no-op and throws nothing. -/
def wsClose (rs : ReadyState) : ReadyState :=
  match rs with
  | .CONNECTING => .CLOSED
  | .OPEN => .CLOSED
  | .CLOSING => .CLOSING
  | .CLOSED => .CLOSED

/-- The WebSocket `useEffect` cleanup run at teardown:
`if (socket && socket.readyState === WebSocket.OPEN) socket.close()`.
The second component counts the `close()` invocations performed. -/
def cleanupEffect (socket : Option ReadyState) : Option ReadyState × Nat :=
  match socket with
  | none => (none, 0)
  | some rs => if rs = .OPEN then (some (wsClose rs), 1) else (some rs, 0)

/-- The `NotificationToast` `onClose` callback for the toast with identifier
`nid`: `setNotifications(prev => prev.filter(n => n.id !== notification.id))`. -/
def dismissNotification (nid : Nat) (q : List Notification) : List Notification :=
  q.filter (fun n => n.id != nid)

/-- State of the notification-expiry machinery: the `notifications` array
together with the single pending `setTimeout` handle of the expiry
`useEffect`, represented by its absolute firing time (`none` when no timer is
pending). The `useEffect` keeps at most one timer alive at any moment: its
cleanup clears the previous timer on every change of `notifications`. -/
structure NotificationTimer where
  queue : List Notification
  deadline : Option Nat
deriving DecidableEq, Repr

/-- The body of the expiry `useEffect`, run at time `now` after every change
of `notifications` (the cleanup has already cleared the previous timer): if
the queue is non-empty a fresh 5000 ms timer is scheduled, otherwise no timer
is pending. -/
def scheduleEffect (now : Nat) (s : NotificationTimer) : NotificationTimer :=
  { s with deadline := if s.queue.isEmpty then none else some (now + 5000) }

/-- Arrival of a notification at time `now`:
`setNotifications(prev => [...prev, n])` followed by the expiry effect re-run
(cancel the previous timer, schedule a fresh one). -/
def enqueueNotification (now : Nat) (n : Notification) (s : NotificationTimer) :
    NotificationTimer :=
  scheduleEffect now { s with queue := s.queue ++ [n] }

/-- The timer callback firing at its deadline:
`setNotifications(prev => prev.slice(1))` drops the head, then the expiry
effect re-runs at the firing time (the fired timer is cleared; a fresh timer
is scheduled when the remaining queue is non-empty). -/
def fireTimer (s : NotificationTimer) : NotificationTimer :=
  match s.deadline with
  | none => s
  | some d => scheduleEffect d { queue := s.queue.drop 1, deadline := none }

/-- Whether the pending timer (if any) is due by time `t`. -/
def dueBy (s : NotificationTimer) (t : Nat) : Bool :=
  match s.deadline with
  | some d => d ≤ t
  | none => false

/-- Termination measure for letting time pass: every firing either shortens
the queue or consumes the last pending timer. -/
def timerMeasure (s : NotificationTimer) : Nat :=
  s.queue.length + (if s.deadline.isSome then 1 else 0)

theorem fireTimer_measure {s : NotificationTimer} (h : s.deadline.isSome) :
    timerMeasure (fireTimer s) < timerMeasure s := by
  obtain ⟨q, dl⟩ := s
  cases dl with
  | none => simp at h
  | some d =>
    cases q with
    | nil => simp [fireTimer, scheduleEffect, timerMeasure]
    | cons a as =>
      simp only [fireTimer, scheduleEffect, timerMeasure, List.drop_succ_cons,
        List.drop_zero, List.isEmpty_iff]
      cases as with
      | nil => simp
      | cons b bs => simp

/-- Letting time pass until `t` with no further insertions: every timer whose
deadline is due fires (dropping the head and rescheduling), in deadline
order. -/
def advanceTo (s : NotificationTimer) (t : Nat) : NotificationTimer :=
  if dueBy s t then advanceTo (fireTimer s) t else s
termination_by timerMeasure s
decreasing_by
  rename_i h
  apply fireTimer_measure
  unfold dueBy at h
  cases hd : s.deadline with
  | none => rw [hd] at h; simp at h
  | some d => simp [hd]

theorem advanceTo_eq (s : NotificationTimer) (t : Nat) :
    advanceTo s t = if dueBy s t then advanceTo (fireTimer s) t else s := by
  rw [advanceTo]

theorem advanceTo_fire {s : NotificationTimer} {t : Nat} (h : dueBy s t = true) :
    advanceTo s t = advanceTo (fireTimer s) t := by
  rw [advanceTo_eq, h]; simp

theorem advanceTo_stop {s : NotificationTimer} {t : Nat} (h : dueBy s t = false) :
    advanceTo s t = s := by
  rw [advanceTo_eq, h]; simp

/-- One point of the dashboard sample `progressData`. -/
structure ProgressPoint where
  name : String
  completed : Nat
  target : Nat
deriving DecidableEq, Repr

/-- One point of the dashboard sample `skillsData`. -/
structure SkillPoint where
  name : String
  value : Nat
deriving DecidableEq, Repr

/-- Shape of the dashboard `learningData` state. -/
structure LearningData where
  progressData : List ProgressPoint
  skillsData : List SkillPoint
  completedCourses : Nat
  totalHours : Nat
  streak : Nat
deriving DecidableEq, Repr

/-- The module-level sample `progressData` array of `dashboard.js`. -/
def progressData : List ProgressPoint :=
  [ ⟨"Week 1", 5, 7⟩, ⟨"Week 2", 8, 7⟩, ⟨"Week 3", 6, 7⟩
  , ⟨"Week 4", 9, 7⟩, ⟨"Week 5", 11, 7⟩, ⟨"Week 6", 8, 7⟩ ]

/-- The module-level sample `skillsData` array of `dashboard.js`. -/
def skillsData : List SkillPoint :=
  [ ⟨"Programming", 75⟩, ⟨"Data Science", 60⟩, ⟨"Design", 45⟩
  , ⟨"Business", 30⟩, ⟨"Marketing", 20⟩ ]

/-- Course record shape used by the dashboard lists. -/
structure DashCourse where
  id : Nat
  title : String
  category : String
  rating : ℚ
  image : String
deriving DecidableEq, Repr

/-- Sample fallback set by `fetchRecommendations` on failure. -/
def fallbackRecommendations : List DashCourse :=
  [ ⟨1, "Machine Learning Fundamentals", "Data Science", 4.8, "/images/course1.jpg"⟩
  , ⟨2, "Advanced React Patterns", "Programming", 4.7, "/images/course2.jpg"⟩
  , ⟨3, "Data Visualization with D3", "Data Science", 4.5, "/images/course3.jpg"⟩
  , ⟨4, "UX Design Principles", "Design", 4.6, "/images/course4.jpg"⟩ ]

/-- Sample fallback set by `fetchTopCourses` on failure. -/
def fallbackTopCourses : List DashCourse :=
  [ ⟨5, "Python for Beginners", "Programming", 4.9, "/images/course5.jpg"⟩
  , ⟨6, "Web Development Bootcamp", "Programming", 4.8, "/images/course6.jpg"⟩
  , ⟨7, "Digital Marketing Essentials", "Marketing", 4.6, "/images/course7.jpg"⟩
  , ⟨8, "Business Analytics", "Business", 4.7, "/images/course8.jpg"⟩ ]

/-- Sample fallback `learningData` set by `fetchLearningData` on failure. -/
def fallbackLearningData : LearningData :=
  { progressData := progressData
    skillsData := skillsData
    completedCourses := 12
    totalHours := 48
    streak := 7 }

/-- State of the Dashboard component: its five `useState` hooks. -/
structure DashState where
  learningData : Option LearningData
  recommendations : List DashCourse
  topCourses : List DashCourse
  loading : Bool
  error : Option String
deriving DecidableEq, Repr

/-- Initial values of the Dashboard `useState` hooks. -/
def initialDashState : DashState :=
  { learningData := none, recommendations := [], topCourses := [], loading := true, error := none }

/-- `fetchLearningData` of `dashboard.js`: its own try/catch; on failure the
error banner text is set, the error is logged (second component) and the
sample data is installed as fallback. -/
def fetchLearningData (r : Except String LearningData) (s : DashState) :
    DashState × List String :=
  match r with
  | .ok d => ({ s with learningData := some d }, [])
  | .error err =>
    ({ s with error := some "Error loading learning data"
              learningData := some fallbackLearningData }, [err])

/-- `fetchRecommendations` of `dashboard.js`: on failure, error banner set,
error logged, sample fallback installed. -/
def fetchRecommendations (r : Except String (List DashCourse)) (s : DashState) :
    DashState × List String :=
  match r with
  | .ok d => ({ s with recommendations := d }, [])
  | .error err =>
    ({ s with error := some "Error loading recommendations"
              recommendations := fallbackRecommendations }, [err])

/-- `fetchTopCourses` of `dashboard.js`: on failure, error banner set, error
logged, sample fallback installed. -/
def fetchTopCourses (r : Except String (List DashCourse)) (s : DashState) :
    DashState × List String :=
  match r with
  | .ok d => ({ s with topCourses := d }, [])
  | .error err =>
    ({ s with error := some "Error loading top courses"
              topCourses := fallbackTopCourses }, [err])

/-- The Dashboard `useEffect`:
`Promise.all([fetchLearningData(), fetchRecommendations(), fetchTopCourses()])`
followed by `.finally(() => setLoading(false))`. Each fetch writes a disjoint
data field, so the settlement interleaving only affects which error banner
wins; this embedding settles them in program order. -/
def dashboardLoad (r1 : Except String LearningData)
    (r2 r3 : Except String (List DashCourse)) (s : DashState) :
    DashState × List String :=
  let (s1, l1) := fetchLearningData r1 s
  let (s2, l2) := fetchRecommendations r2 s1
  let (s3, l3) := fetchTopCourses r3 s2
  ({ s3 with loading := false }, l1 ++ l2 ++ l3)

/-- Two courses used by the concrete scenarios. -/
def introToRust : Course := { id := 201, title := "Intro to Rust" }

/-- Second course of the concrete scenarios. -/
def introToGo : Course := { id := 202, title := "Intro to Go" }

theorem take_append_take {α : Type} (xs ys : List α) (n : Nat) :
    (xs ++ ys.take n).take n = (xs ++ ys).take n := by
  rw [List.take_append_eq_append_take, List.take_append_eq_append_take]
  rw [List.take_take, Nat.min_eq_left (Nat.sub_le n xs.length)]

theorem runMessages_new_recommendation (events : List (Nat × Course)) :
    ∀ s : HomeState, s.aiSuggestions.length ≤ 10 →
    (runMessages s (events.map (fun p => (p.1, WsData.new_recommendation p.2)))).1.aiSuggestions
      = ((events.map Prod.snd).reverse ++ s.aiSuggestions).take 10 := by
  induction events with
  | nil =>
    intro s h
    simp [runMessages, List.take_of_length_le h]
  | cons p rest ih =>
    intro s h
    obtain ⟨t, c⟩ := p
    simp only [List.map_cons, runMessages, onmessage]
    rw [ih _ (by simp [List.length_take])]
    rw [take_append_take]
    simp [List.append_assoc]

/-- C1: for every sequence of new-recommendation events delivered to the
message handler, each course is prepended and the list truncated to 10, so
the AI-suggestion list equals the received courses most-recent-first (in
front of what remains of the initial list), cut to the 10 newest, and never
exceeds 10 entries. The hypothesis records that the component starts within
the cap (its initial list is empty, and after the mock fetch holds 5). -/
theorem c1_theorem (s : HomeState) (events : List (Nat × Course))
    (h : s.aiSuggestions.length ≤ 10) :
    (runMessages s (events.map (fun p => (p.1, WsData.new_recommendation p.2)))).1.aiSuggestions
      = ((events.map Prod.snd).reverse ++ s.aiSuggestions).take 10
    ∧ (runMessages s (events.map (fun p => (p.1, WsData.new_recommendation p.2)))).1.aiSuggestions.length ≤ 10 := by
  have e := runMessages_new_recommendation events s h
  refine ⟨e, ?_⟩
  rw [e]
  simp [List.length_take]

/-- Witness for C1 at the freshly loaded component and two concrete events. -/
theorem c1_witness :
    (runMessages homeAfterLoad ([(1000, introToRust), (2000, introToGo)].map
        (fun p => (p.1, WsData.new_recommendation p.2)))).1.aiSuggestions
      = (([(1000, introToRust), (2000, introToGo)].map Prod.snd).reverse
          ++ homeAfterLoad.aiSuggestions).take 10
    ∧ (runMessages homeAfterLoad ([(1000, introToRust), (2000, introToGo)].map
        (fun p => (p.1, WsData.new_recommendation p.2)))).1.aiSuggestions.length ≤ 10 :=
  c1_theorem homeAfterLoad [(1000, introToRust), (2000, introToGo)] (by decide)

/-- C3: a message whose discriminator is neither `new_recommendation` nor
`trending_update` leaves the whole page model — AI-suggestion list, trending
list, notification queue, and the socket handle — unchanged, and produces
exactly the one diagnostic record; the handler is a total function, so no
error reaches the caller. -/
theorem c3_theorem (now : Nat) (m : PageModel) (kind : String) :
    dispatchMessage now m (.wellFormed (.other kind))
      = (m, ["Received unknown update type: " ++ kind]) := rfl

/-- C5: channel-level errors and malformed or unrecognized messages are
non-fatal. `onerror` only logs; a malformed message makes `JSON.parse` throw
before any state is touched, and the resulting uncaught error is confined to
the event loop (modelled by `dispatchMessage`), which records it; an
unrecognized kind only logs. In each case the page model — both lists, the
notification queue, and the socket handle (hence no reconnection) — is
unchanged, exactly one diagnostic is recorded, and nothing is surfaced to the
caller. -/
theorem c5_theorem (now : Nat) (m : PageModel) (raw kind err : String) :
    ((dispatchMessage now m (.malformed raw)).1 = m
      ∧ (dispatchMessage now m (.malformed raw)).2.length = 1)
    ∧ ((dispatchMessage now m (.wellFormed (.other kind))).1 = m
      ∧ (dispatchMessage now m (.wellFormed (.other kind))).2.length = 1)
    ∧ onerror m err = (m, ["WebSocket error: " ++ err]) :=
  ⟨⟨rfl, rfl⟩, ⟨rfl, rfl⟩, rfl⟩

/-- C6: a `trending_update` event replaces the trending list wholesale with
exactly the received courses in the received order, and leaves the
AI-suggestion list, the notification queue, and the remaining state
unchanged. -/
theorem c6_theorem (now : Nat) (s : HomeState) (courses : List Course) :
    (onmessage now s (.trending_update courses)).1.trending = courses
    ∧ (onmessage now s (.trending_update courses)).1.aiSuggestions = s.aiSuggestions
    ∧ (onmessage now s (.trending_update courses)).1.notifications = s.notifications
    ∧ (onmessage now s (.trending_update courses)).1.topPicks = s.topPicks
    ∧ (onmessage now s (.trending_update courses)).1.isLoading = s.isLoading
    ∧ (onmessage now s (.trending_update courses)).2 = [] :=
  ⟨rfl, rfl, rfl, rfl, rfl, rfl⟩

/-- C4: the teardown cleanup closes the channel exactly when it is still
open: an OPEN socket is closed by exactly one `close()` call and ends CLOSED;
in every other state (CONNECTING, CLOSING, CLOSED, or no socket) no `close()`
call is made, so an already-closed channel is never closed again; the
resulting handle is never left OPEN, and running the cleanup again never
performs another `close()` (no double-close on any path). -/
theorem c4_theorem :
    cleanupEffect (some .OPEN) = (some .CLOSED, 1)
    ∧ cleanupEffect (some .CONNECTING) = (some .CONNECTING, 0)
    ∧ cleanupEffect (some .CLOSING) = (some .CLOSING, 0)
    ∧ cleanupEffect (some .CLOSED) = (some .CLOSED, 0)
    ∧ cleanupEffect none = (none, 0)
    ∧ ∀ socket : Option ReadyState,
        (cleanupEffect socket).1 ≠ some .OPEN
        ∧ (cleanupEffect (cleanupEffect socket).1).2 = 0 := by
  refine ⟨rfl, rfl, rfl, rfl, rfl, ?_⟩
  rintro (_ | rs)
  · exact ⟨by decide, by decide⟩
  · cases rs <;> exact ⟨by decide, by decide⟩

/-- C8: starting from the freshly loaded component (empty notification
queue), delivering the two new-recommendation events "Intro to Rust" then
"Intro to Go" puts the Go course at the front of the AI-suggestion list with
the Rust course immediately after it, and leaves exactly two notifications
pending. -/
theorem c8_theorem :
    ((runMessages homeAfterLoad
        [(1000, .new_recommendation introToRust),
         (2000, .new_recommendation introToGo)]).1.aiSuggestions.get? 0
      = some introToGo)
    ∧ ((runMessages homeAfterLoad
        [(1000, .new_recommendation introToRust),
         (2000, .new_recommendation introToGo)]).1.aiSuggestions.get? 1
      = some introToRust)
    ∧ (runMessages homeAfterLoad
        [(1000, .new_recommendation introToRust),
         (2000, .new_recommendation introToGo)]).1.notifications.length = 2 := by
  refine ⟨?_, ?_, ?_⟩ <;> rfl

/-- C9: when the initial data population fails (any of the three awaited
fetches rejects), the failure is caught by the `catch` branch and logged, the
loading indicator is cleared, and the lists are left untouched — at the
component's initial state they stay empty; nothing is retried. On the
dashboard the same failure mode leaves the loading flag cleared and the lists
at the hardcoded sample fallback values, with every error logged and the
error banner set. -/
theorem c9_theorem :
    (∀ (e : String) (r2 r3 : Except String (List Course)) (s : HomeState),
      fetchData (.error e) r2 r3 s
        = ({ s with isLoading := false }, ["Error fetching data: " ++ e]))
    ∧ (∀ (tp : List Course) (e : String) (r3 : Except String (List Course)) (s : HomeState),
      fetchData (.ok tp) (.error e) r3 s
        = ({ s with isLoading := false }, ["Error fetching data: " ++ e]))
    ∧ (∀ (tp tr : List Course) (e : String) (s : HomeState),
      fetchData (.ok tp) (.ok tr) (.error e) s
        = ({ s with isLoading := false }, ["Error fetching data: " ++ e]))
    ∧ (∀ (e : String) (r2 r3 : Except String (List Course)),
      (fetchData (.error e) r2 r3 initialHomeState).1.topPicks = []
      ∧ (fetchData (.error e) r2 r3 initialHomeState).1.trending = []
      ∧ (fetchData (.error e) r2 r3 initialHomeState).1.aiSuggestions = []
      ∧ (fetchData (.error e) r2 r3 initialHomeState).1.isLoading = false)
    ∧ (∀ e1 e2 e3 : String,
      (dashboardLoad (.error e1) (.error e2) (.error e3) initialDashState).1.loading = false
      ∧ (dashboardLoad (.error e1) (.error e2) (.error e3) initialDashState).1.learningData
          = some fallbackLearningData
      ∧ (dashboardLoad (.error e1) (.error e2) (.error e3) initialDashState).1.recommendations
          = fallbackRecommendations
      ∧ (dashboardLoad (.error e1) (.error e2) (.error e3) initialDashState).1.topCourses
          = fallbackTopCourses
      ∧ (dashboardLoad (.error e1) (.error e2) (.error e3) initialDashState).1.error ≠ none
      ∧ (dashboardLoad (.error e1) (.error e2) (.error e3) initialDashState).2 = [e1, e2, e3]) := by
  refine ⟨fun e r2 r3 s => rfl, fun tp e r3 s => rfl, fun tp tr e s => rfl, ?_, ?_⟩
  · exact fun e r2 r3 => ⟨rfl, rfl, rfl, rfl⟩
  · exact fun e1 e2 e3 => ⟨rfl, rfl, rfl, rfl, by simp [dashboardLoad, fetchLearningData,
      fetchRecommendations, fetchTopCourses], rfl⟩

theorem advanceTo_drain (j : Nat) :
    ∀ (s : NotificationTimer) (d : Nat), s.deadline = some d →
    (advanceTo s (d + 5000 * j)).queue = s.queue.drop (j + 1)
    ∧ (advanceTo s (d + 5000 * j)).deadline
        = (if s.queue.drop (j + 1) = [] then none else some (d + 5000 * (j + 1))) := by
  induction j with
  | zero =>
    intro s d h
    have hdue : dueBy s (d + 5000 * 0) = true := by
      unfold dueBy; rw [h]; simp
    by_cases hq : s.queue.drop 1 = []
    · have hfire : fireTimer s = ⟨[], none⟩ := by
        simp [fireTimer, h, scheduleEffect, hq]
      rw [advanceTo_fire hdue, hfire, advanceTo_stop (by simp [dueBy])]
      simp [hq]
    · have hq' : ¬s.queue.tail = [] := by simpa [List.drop_one] using hq
      have hfire : fireTimer s = ⟨s.queue.drop 1, some (d + 5000)⟩ := by
        simp [fireTimer, h, scheduleEffect, List.isEmpty_iff, hq']
      rw [advanceTo_fire hdue, hfire, advanceTo_stop (by unfold dueBy; simp)]
      simp [hq, hq']
  | succ j ih =>
    intro s d h
    have hdue : dueBy s (d + 5000 * (j + 1)) = true := by
      unfold dueBy; rw [h]; simp
    by_cases hq : s.queue.drop 1 = []
    · have hfire : fireTimer s = ⟨[], none⟩ := by
        simp [fireTimer, h, scheduleEffect, hq]
      rw [advanceTo_fire hdue, hfire, advanceTo_stop (by simp [dueBy])]
      have hlen : s.queue.length ≤ 1 := by
        have := congrArg List.length hq
        simp [List.length_drop] at this
        omega
      have hdropall : s.queue.drop (j + 1 + 1) = [] :=
        List.drop_eq_nil_of_le (by omega)
      simp [hdropall]
    · have hq' : ¬s.queue.tail = [] := by simpa [List.drop_one] using hq
      have hfire : fireTimer s = ⟨s.queue.drop 1, some (d + 5000)⟩ := by
        simp [fireTimer, h, scheduleEffect, List.isEmpty_iff, hq']
      rw [advanceTo_fire hdue, hfire]
      have ht : d + 5000 * (j + 1) = (d + 5000) + 5000 * j := by ring
      rw [ht]
      obtain ⟨hqe, hde⟩ := ih ⟨s.queue.drop 1, some (d + 5000)⟩ (d + 5000) rfl
      have e1 : (s.queue.drop 1).drop (j + 1) = s.queue.drop (j + 1 + 1) := by
        rw [List.drop_drop]; congr 1; omega
      have e2 : (d + 5000) + 5000 * (j + 1) = d + 5000 * (j + 1 + 1) := by ring
      constructor
      · rw [hqe]; exact e1
      · rw [hde, e1, e2]

/-- C10: the expiry machinery keeps at most one pending timer (the single
`deadline` slot, cancelled and rescheduled by the effect on every queue
change); with a timer pending at deadline `d`, letting time pass to
`d + 5000·j` fires the timer `j + 1` times at 5-second intervals, each firing
removing exactly the then-current head, so the remaining queue is the
original minus its `j + 1` oldest entries (FIFO) and the sole pending timer,
when the queue is still non-empty, is scheduled for `d + 5000·(j + 1)`: one
removal per 5 seconds once insertions stop. -/
theorem c10_theorem (s : NotificationTimer) (d j : Nat) (h : s.deadline = some d) :
    (advanceTo s (d + 5000 * j)).queue = s.queue.drop (j + 1)
    ∧ (advanceTo s (d + 5000 * j)).deadline
        = (if s.queue.drop (j + 1) = [] then none else some (d + 5000 * (j + 1))) :=
  advanceTo_drain j s d h

/-- Witness for C10: a two-element queue with a timer due at 5000 loses
exactly its head at that deadline, and the fresh timer is set for 10000. -/
theorem c10_witness :
    (advanceTo ⟨[⟨0, "a"⟩, ⟨1, "b"⟩], some 5000⟩ (5000 + 5000 * 0)).queue
      = ([⟨0, "a"⟩, ⟨1, "b"⟩] : List Notification).drop (0 + 1)
    ∧ (advanceTo ⟨[⟨0, "a"⟩, ⟨1, "b"⟩], some 5000⟩ (5000 + 5000 * 0)).deadline
      = (if ([⟨0, "a"⟩, ⟨1, "b"⟩] : List Notification).drop (0 + 1) = []
          then none else some (5000 + 5000 * (0 + 1))) :=
  c10_theorem ⟨[⟨0, "a"⟩, ⟨1, "b"⟩], some 5000⟩ 5000 0 rfl

/-- C2 counterexample: the claim promises removal within 5 seconds of
insertion even when further insertions occur during the window. Insert a
notification at time 0 (timer due at 5000) and a second one at time 4000:
the effect re-run cancels the pending timer and schedules a fresh one due at
9000, so at time 8000 — already 8 seconds after its insertion — the first
notification is still in the visible queue; it is only removed by the firing
at 9000. -/
theorem c2_counterexample :
    (advanceTo (enqueueNotification 4000 ⟨4000, "b"⟩
        (advanceTo (enqueueNotification 0 ⟨0, "a"⟩ ⟨[], none⟩) 4000)) 8000).queue
      = [⟨0, "a"⟩, ⟨4000, "b"⟩]
    ∧ 0 + 5000 < 8000
    ∧ (advanceTo (enqueueNotification 4000 ⟨4000, "b"⟩
        (advanceTo (enqueueNotification 0 ⟨0, "a"⟩ ⟨[], none⟩) 4000)) 9000).queue
      = [⟨4000, "b"⟩] := by
  have h1 : advanceTo (enqueueNotification 0 ⟨0, "a"⟩ ⟨[], none⟩) 4000
      = enqueueNotification 0 ⟨0, "a"⟩ ⟨[], none⟩ :=
    advanceTo_stop (by decide)
  rw [h1]
  have h2 : enqueueNotification 4000 ⟨4000, "b"⟩ (enqueueNotification 0 ⟨0, "a"⟩ ⟨[], none⟩)
      = ⟨[⟨0, "a"⟩, ⟨4000, "b"⟩], some 9000⟩ := by decide
  rw [h2]
  refine ⟨?_, by omega, ?_⟩
  · rw [advanceTo_stop (by decide)]
  · rw [advanceTo_fire (by decide)]
    have h3 : fireTimer ⟨[⟨0, "a"⟩, ⟨4000, "b"⟩], some 9000⟩
        = ⟨[⟨4000, "b"⟩], some 14000⟩ := by decide
    rw [h3, advanceTo_stop (by decide)]

/-- C2 amended: every enqueued notification is removed automatically, with no
external trigger, but the 5-second bound is measured from the last change of
the queue, not from the notification's own insertion (each change cancels and
restarts the single timer): with a timer pending at deadline `d` and `k`
notifications queued, the queue is completely drained by time
`d + 5000·(k − 1)` — one head removal per 5 seconds — while under interleaved
insertions an individual notification can outlive its nominal 5 seconds. -/
theorem c2_theorem (s : NotificationTimer) (d : Nat) (h : s.deadline = some d) :
    (advanceTo s (d + 5000 * (s.queue.length - 1))).queue = [] := by
  obtain ⟨hq, _⟩ := advanceTo_drain (s.queue.length - 1) s d h
  rw [hq]
  exact List.drop_eq_nil_of_le (by omega)

/-- Witness for C2 (amended): a single notification with its timer due at
5000 is gone once that deadline passes. -/
theorem c2_witness :
    (advanceTo ⟨[⟨0, "a"⟩], some 5000⟩
        (5000 + 5000 * ((⟨[⟨0, "a"⟩], some 5000⟩ : NotificationTimer).queue.length - 1))).queue
      = [] :=
  c2_theorem ⟨[⟨0, "a"⟩], some 5000⟩ 5000 rfl

/-- C7 counterexample: the claim says explicit dismissal removes the oldest
entry. Dismissing the toast with identifier 2000 from a queue holding the
older notification 1000 and the newer notification 2000 removes the newer
one and keeps the oldest — not the FIFO head removal (`drop 1`) the claim
describes. -/
theorem c7_counterexample :
    dismissNotification 2000 [⟨1000, "New recommendation: Intro to Rust"⟩,
        ⟨2000, "New recommendation: Intro to Go"⟩]
      = [⟨1000, "New recommendation: Intro to Rust"⟩]
    ∧ dismissNotification 2000 [⟨1000, "New recommendation: Intro to Rust"⟩,
        ⟨2000, "New recommendation: Intro to Go"⟩]
      ≠ ([⟨1000, "New recommendation: Intro to Rust"⟩,
        ⟨2000, "New recommendation: Intro to Go"⟩] : List Notification).drop 1 := by
  refine ⟨by decide, by decide⟩

/-- C7 amended: explicit user dismissal removes exactly the entries carrying
the dismissed toast's identifier — the specific notification the user closed,
wherever it sits in the queue — and preserves the relative order of all other
entries; it is the automatic timer expiry, not dismissal, that drops the
oldest entry. -/
theorem c7_theorem (q1 q2 : List Notification) (n : Notification)
    (h1 : ∀ m ∈ q1, m.id ≠ n.id) (h2 : ∀ m ∈ q2, m.id ≠ n.id) :
    dismissNotification n.id (q1 ++ n :: q2) = q1 ++ q2 := by
  unfold dismissNotification
  rw [List.filter_append]
  have e1 : q1.filter (fun m => m.id != n.id) = q1 :=
    List.filter_eq_self.mpr (fun m hm => by simpa [bne_iff_ne] using h1 m hm)
  have e2 : q2.filter (fun m => m.id != n.id) = q2 :=
    List.filter_eq_self.mpr (fun m hm => by simpa [bne_iff_ne] using h2 m hm)
  rw [e1]
  simp [List.filter_cons, e2]

/-- Witness for C7 (amended): dismissing the middle toast of a three-element
queue removes exactly that toast. -/
theorem c7_witness :
    dismissNotification (Notification.mk 2000 "b").id
        ([⟨1000, "a"⟩] ++ Notification.mk 2000 "b" :: [⟨3000, "c"⟩])
      = [⟨1000, "a"⟩] ++ [⟨3000, "c"⟩] :=
  c7_theorem [⟨1000, "a"⟩] [⟨3000, "c"⟩] ⟨2000, "b"⟩ (by decide) (by decide)

end AdaptML
